import Mathlib

/-!
Verification of the external-data extraction pipeline of the cityspire
data-science service (`app/external.py`).

The Python module is shallowly embedded: Python `dict` fields become
`Option`-typed structure fields (a `none` field models an absent JSON key or
a missing HTML element), Python exceptions become the `PyErr` type with
fallible code returning `Except PyErr`, Python `str` values are Lean
`String`s (with list-of-character helpers mirroring `str.lower`, `str.strip`
and character replacement), and BeautifulSoup tag lookups become fields that
hold the result of the corresponding `find`/`find_all` call.
-/

namespace CitySpire

/-- Python exception values that the module can raise or catch:
`KeyError` (missing dict key), `IndexError` (list index out of range),
`AttributeError` (attribute access on `None`), `TypeError`
(e.g. `str + None`), `ValueError` (e.g. `int()` on a non-numeric string). -/
inductive PyErr where
  | keyError (k : String)
  | indexError
  | attributeError
  | typeError
  | valueError
  deriving DecidableEq, Repr

/-- Python `d[k]` on a dict: the value when the key is present, otherwise
`KeyError(k)`. -/
def dictGet {α : Type} (o : Option α) (k : String) : Except PyErr α :=
  match o with
  | some v => Except.ok v
  | none => Except.error (PyErr.keyError k)

/-- Python attribute access (`x.attr`) on a value that may be `None`:
accessing an attribute of `None` raises `AttributeError`. -/
def pyAttr {α : Type} (o : Option α) : Except PyErr α :=
  match o with
  | some v => Except.ok v
  | none => Except.error PyErr.attributeError

/-- Python `try: ... except AttributeError: default`.  Only `AttributeError`
is caught; every other exception propagates. -/
def catchAttr {α : Type} (x : Except PyErr α) (dflt : α) : Except PyErr α :=
  match x with
  | Except.error PyErr.attributeError => Except.ok dflt
  | other => other

/-- Python `l[i]` on a list: the element when `i` is in range, otherwise
`IndexError`. -/
def listIndex {α : Type} (l : List α) (i : Nat) : Except PyErr α :=
  match l.get? i with
  | some v => Except.ok v
  | none => Except.error PyErr.indexError

/-- Python `str.lower()` over the characters of a string. -/
def pyLower (l : List Char) : List Char := l.map Char.toLower

/-- Python `str.strip()`: remove whitespace from both ends. -/
def pyStrip (l : List Char) : List Char :=
  ((l.dropWhile Char.isWhitespace).reverse.dropWhile Char.isWhitespace).reverse

/-- Python `s.strip()` at the `String` level. -/
def pyStripS (s : String) : String := String.mk (pyStrip s.data)

/-- The per-character replacement performed by the climate URL builder:
a space becomes a hyphen, every other character is kept. -/
def spaceToHyphen (c : Char) : Char := if c = ' ' then '-' else c

/-- The body of the cleaning loop of `generate_climate_url` applied to one
input string: `string = string.lower().strip()`, then, only when a space
occurs in the string, rebuild it replacing each space by a hyphen. -/
def clean_string (s : String) : String :=
  let t := pyStrip (pyLower s.data)
  if ' ' ∈ t then String.mk (t.map spaceToHyphen) else String.mk t

/-- The function `generate_climate_url` (external.py:153-179): clean the city and state
strings and interpolate them into the fixed usclimatedata path template. -/
def generate_climate_url (city state : String) : String :=
  "https://www.usclimatedata.com/climate/" ++ clean_string city ++ "/" ++
    clean_string state ++ "/united-states/"

/-- Modelled from the spec's words (for comparison with `clean_string`):
lowercase, trim surrounding whitespace, and replace every internal space
with a hyphen, unconditionally. -/
def normalize_spec (s : String) : String :=
  String.mk ((pyStrip (pyLower s.data)).map spaceToHyphen)

/-- A string that is already lowercase (every character fixed by
`Char.toLower`), trimmed (no leading or trailing whitespace) and free of
spaces. -/
def normalizedStr (s : String) : Prop :=
  (∀ c ∈ s.data, Char.toLower c = c) ∧
  s.data.head?.all (fun c => !c.isWhitespace) = true ∧
  s.data.getLast?.all (fun c => !c.isWhitespace) = true ∧
  ' ' ∉ s.data

/-! ## Weather extraction (`current_weather`, external.py:49-62)

The parsed provider JSON is modelled with one `Option` field per key the
code accesses; numeric leaf values are carried as the strings Python's
`str()` would produce, since the code only interpolates them. -/

/-- The nested `main` object of the weather payload. -/
structure WeatherMain where
  temp : Option String
  temp_max : Option String
  temp_min : Option String
  humidity : Option String
  feels_like : Option String
  pressure : Option String
  deriving DecidableEq, Repr

/-- One element of the `weather` array of the payload. -/
structure WeatherItem where
  description : Option String
  deriving DecidableEq, Repr

/-- The nested `wind` object of the weather payload. -/
structure WindObj where
  speed : Option String
  deriving DecidableEq, Repr

/-- The weather payload after `data.json()`: the three top-level keys the
code reads. -/
structure WeatherData where
  main : Option WeatherMain
  weather : Option (List WeatherItem)
  wind : Option WindObj
  deriving DecidableEq, Repr

/-- The dictionary returned by the `/api/temperature` handler. -/
structure WeatherReport where
  date : String
  description : String
  temperature : String
  high_today : String
  low_today : String
  humidity : String
  wind_speed : String
  feels_like : String
  pressure : String
  deriving DecidableEq, Repr

/-- The extraction portion of `current_weather`: field accesses in the
evaluation order of the Python dict literal (`main` is read on line 50;
then the values `weather[0].description`, `temp`, `temp_max`, `temp_min`,
`humidity`, `wind.speed`, `feels_like`, `pressure` in literal order).
`today` stands for `datetime.datetime.today().strftime("%m/%d/%y")`. -/
def current_weather (today : String) (data : WeatherData) :
    Except PyErr WeatherReport := do
  let main ← dictGet data.main "main"
  let w ← dictGet data.weather "weather"
  let w0 ← listIndex w 0
  let description ← dictGet w0.description "description"
  let temp ← dictGet main.temp "temp"
  let temp_max ← dictGet main.temp_max "temp_max"
  let temp_min ← dictGet main.temp_min "temp_min"
  let humidity ← dictGet main.humidity "humidity"
  let wind ← dictGet data.wind "wind"
  let speed ← dictGet wind.speed "speed"
  let feels_like ← dictGet main.feels_like "feels_like"
  let pressure ← dictGet main.pressure "pressure"
  return { date := today
           description := description
           temperature := temp ++ " F°"
           high_today := temp_max ++ " F°"
           low_today := temp_min ++ " F°"
           humidity := humidity ++ "%"
           wind_speed := speed ++ " mph"
           feels_like := feels_like ++ " F°"
           pressure := pressure ++ " hPa" }

/-- Holds (`true`) when some key the weather extraction expects is absent:
`main` (or a field inside it), `weather` (or its first element or its
`description`), or `wind` (or its `speed`). -/
def weather_field_missing (d : WeatherData) : Bool :=
  (match d.main with
   | none => true
   | some m =>
       m.temp.isNone || m.temp_max.isNone || m.temp_min.isNone ||
       m.humidity.isNone || m.feels_like.isNone || m.pressure.isNone) ||
  (match d.weather with
   | none => true
   | some l =>
       match l.head? with
       | none => true
       | some w0 => w0.description.isNone) ||
  (match d.wind with
   | none => true
   | some w => w.speed.isNone)

/-! ## Job listings extraction (`job_opportunities` / `get_record`,
external.py:67-142)

A BeautifulSoup tag is a class/attribute-carrying element; a `Card` holds
the results of the lookups `get_record` performs on one job card
(`card.h2.a`, `card.find('span', 'company')`, ...), each `none` when the
element is absent from the page. -/

/-- An HTML element as the code uses it: its attributes and its `.text`. -/
structure Tag where
  attrs : List (String × String)
  text : String
  deriving DecidableEq, Repr

/-- BeautifulSoup `tag.get(key)`: the attribute value, or `None` when the
attribute is absent (no exception). -/
def tagAttr (t : Tag) (k : String) : Option String :=
  (t.attrs.find? (fun p => p.1 == k)).map (fun p => p.2)

/-- The first `h2` descendant of a card (`card.h2`), as far as the code
uses it: its first `a` descendant. -/
structure H2Elem where
  a : Option Tag
  deriving DecidableEq, Repr

/-- One `div.jobsearch-SerpJobCard` element, as the results of the lookups
`get_record` performs on it. -/
structure Card where
  h2 : Option H2Elem
  span_company : Option Tag
  div_recJobLoc : Option Tag
  div_summary : Option Tag
  span_date : Option Tag
  span_salary : Option Tag
  deriving DecidableEq, Repr

/-- The record `get_record` builds for one job card. -/
structure JobRecord where
  job_title : Option String
  company : String
  location : Option String
  date_posted : String
  extract_date : String
  description : String
  salary : String
  job_url : String
  deriving DecidableEq, Repr

/-- The scraped document: `find_all('div', 'jobsearch-SerpJobCard')` in
document order, and `find('div', id='searchCountPages')`. -/
structure JobDoc where
  cards : List Card
  searchCountPages : Option Tag
  deriving DecidableEq, Repr

/-- The dictionary returned by the `/api/job_opportunities` handler. -/
structure JobResult where
  search_results : String
  top_listings : List JobRecord
  deriving DecidableEq, Repr

/-- The function `get_record` (external.py:116-142).  `atag = card.h2.a` raises
`AttributeError` when the card has no `h2`; `atag.get('title')` raises when
it has no anchor; `.text` on a failed `find` raises; only the salary lookup
is wrapped in `try/except AttributeError`.  `str + None` on a missing
`href` raises `TypeError`.  `extract_date` stands for
`datetime.datetime.today().strftime('%Y-%m-%d')`. -/
def get_record (card : Card) (extract_date : String) : Except PyErr JobRecord := do
  let h2 ← pyAttr card.h2
  let atag ← pyAttr h2.a
  let job_title := tagAttr atag "title"
  let companyTag ← pyAttr card.span_company
  let company := pyStripS companyTag.text
  let locTag ← pyAttr card.div_recJobLoc
  let job_location := tagAttr locTag "data-rc-loc"
  let sumTag ← pyAttr card.div_summary
  let job_summary := pyStripS sumTag.text
  let dateTag ← pyAttr card.span_date
  let post_date := pyStripS dateTag.text
  let salary ← catchAttr
    (do
      let s ← pyAttr card.span_salary
      pure (pyStripS s.text)) ""
  let href ←
    match tagAttr atag "href" with
    | some s => Except.ok s
    | none => Except.error PyErr.typeError
  let job_url := "https://www.indeed.com" ++ href
  return { job_title := job_title
           company := company
           location := job_location
           date_posted := post_date
           extract_date := extract_date
           description := job_summary
           salary := salary
           job_url := job_url }

/-- Python `s.split()`: split on whitespace, discarding empty pieces. -/
def pySplit (s : String) : List String :=
  (s.split Char.isWhitespace).filter (fun w => w != "")

/-- Python `l[-2:]`: the last two elements (the whole list when it is
shorter). -/
def lastTwo {α : Type} (l : List α) : List α := l.drop (l.length - 2)

/-- The extraction portion of `job_opportunities` (external.py:99-114):
run `get_record` over every found card (no slicing), then best-effort
extract the total-result-count string. -/
def job_opportunities (doc : JobDoc) (extract_date : String) :
    Except PyErr JobResult := do
  let records ← doc.cards.mapM (fun card => get_record card extract_date)
  let jobs :=
    match doc.searchCountPages with
    | some t =>
        let total_jobs := pyStripS t.text
        String.intercalate " " (lastTwo (pySplit total_jobs))
    | none => ""
  return { search_results := jobs, top_listings := records }

/-- A card on which `get_record` hits an uncaught `AttributeError`: one of
the non-salary lookups (title anchor, company span, location div, summary
div, date span) found nothing. -/
def cardMalformed (card : Card) : Prop :=
  card.h2 = none ∨ (∃ h, card.h2 = some h ∧ h.a = none) ∨
  card.span_company = none ∨ card.div_recJobLoc = none ∨
  card.div_summary = none ∨ card.span_date = none

/-! ## Climate extraction (`get_forecast`, external.py:202-218) -/

/-- The scraped climate page: `find_all('td', 'high text-right')` and
`find_all('td', 'low text-right')` results in document order. -/
structure ClimateDoc where
  td_high : List Tag
  td_low : List Tag
  deriving DecidableEq, Repr

/-- The dictionary returned by the `/api/climate` handler. -/
structure ClimateOut where
  avg_high : List Int
  avg_low : List Int
  deriving DecidableEq, Repr

/-- The digits of a Python `int()` literal: all characters decimal digits
and at least one of them. -/
def digitsVal (l : List Char) : Option Nat :=
  if l = [] then none
  else if l.all Char.isDigit then
    some (l.foldl (fun acc c => acc * 10 + (c.toNat - 48)) 0)
  else none

/-- Python `int(s)` for the strings the scraper feeds it: an optional sign
followed by decimal digits; anything else is a `ValueError` (`none`). -/
def pyInt (s : String) : Option Int :=
  match s.data with
  | '-' :: ds => (digitsVal ds).map (fun n => -(n : Int))
  | '+' :: ds => (digitsVal ds).map (fun n => (n : Int))
  | ds => (digitsVal ds).map (fun n => (n : Int))

/-- Python `int(s)` as an exception-raising operation. -/
def pyIntE (s : String) : Except PyErr Int :=
  match pyInt s with
  | some n => Except.ok n
  | none => Except.error PyErr.valueError

/-- The extraction portion of `get_forecast`: `int(t.text.strip())` over
the first twelve cells of each class (`high_temp[:12]`, `low_temp[:12]`). -/
def get_forecast (doc : ClimateDoc) : Except PyErr ClimateOut := do
  let avg_high_monthly ← (doc.td_high.take 12).mapM (fun t => pyIntE (pyStripS t.text))
  let avg_low_monthly ← (doc.td_low.take 12).mapM (fun t => pyIntE (pyStripS t.text))
  return { avg_high := avg_high_monthly, avg_low := avg_low_monthly }

/-! ## Rental listings extraction (`rental_listing`, external.py:277-328)

One entry of the provider's `data.results` array, with one `Option` field
per JSON key the code accesses (`none` = key absent).  `pet_policy` is
doubly optional: the outer `Option` is key presence, the inner one is a
JSON `null` value (the code's `!= None` test). Numeric leaves are carried
as integers, which the code only copies. -/

/-- The `location.address.coordinate` object of one entry. -/
structure Coordinate where
  lat : Option Int
  lon : Option Int
  deriving DecidableEq, Repr

/-- The `location.address` object of one entry. -/
structure RAddress where
  coordinate : Option Coordinate
  line : Option String
  city : Option String
  state : Option String
  deriving DecidableEq, Repr

/-- The `location` object of one entry. -/
structure RLocation where
  address : Option RAddress
  deriving DecidableEq, Repr

/-- A present, non-null `pet_policy` object. -/
structure PetPolicy where
  cats : Option Bool
  dogs : Option Bool
  deriving DecidableEq, Repr

/-- The `description` object of one entry (the two fields the code reads). -/
structure RDescription where
  baths_max : Option Int
  beds_max : Option Int
  deriving DecidableEq, Repr

/-- One element of the provider's `results` array. -/
structure RentalEntry where
  location : Option RLocation
  pet_policy : Option (Option PetPolicy)
  description : Option RDescription
  list_price_max : Option Int
  tags : Option (List String)
  photos : Option (List String)
  deriving DecidableEq, Repr

/-- A pet-policy output value: either the provider's boolean flag or the
`"Unknown"` sentinel string (Python mixes both in the same dict slot). -/
inductive PetFlag where
  | ofBool (b : Bool)
  | ofString (s : String)
  deriving DecidableEq, Repr

/-- The `elements` dictionary built for one rental entry. -/
structure RentalOut where
  latitude : Int
  longitude : Int
  street_address : String
  city : String
  state : String
  bedrooms : Int
  bathrooms : Int
  cats_allowed : PetFlag
  dogs_allowed : PetFlag
  list_price : Int
  ammenities : List String
  photos : Option (List String)
  deriving DecidableEq, Repr

/-- The body of the `for i in range(limit)` loop of `rental_listing`
(external.py:280-326) for one entry.  The Python code re-indexes
`response[i]` on every line; the navigation is pure, so the chains are
bound once here with identical results.  Note the `except AttributeError`
around the `baths_max`,
`beds_max`, `tags` and `photos` accesses: a missing dict key raises
`KeyError`, which this handler does not catch. -/
def rental_entry (r : RentalEntry) : Except PyErr RentalOut := do
  let loc ← dictGet r.location "location"
  let addr ← dictGet loc.address "address"
  let coord ← dictGet addr.coordinate "coordinate"
  let lat ← dictGet coord.lat "lat"
  let lon ← dictGet coord.lon "lon"
  let line ← dictGet addr.line "line"
  let city ← dictGet addr.city "city"
  let state ← dictGet addr.state "state"
  let pet_policy ← dictGet r.pet_policy "pet_policy"
  let baths ← catchAttr
    (do
      let d ← dictGet r.description "description"
      dictGet d.baths_max "baths_max") 0
  let bedrooms ← catchAttr
    (do
      let d ← dictGet r.description "description"
      dictGet d.beds_max "beds_max") 0
  let cats_allowed ←
    match pet_policy with
    | some pp => do
        let b ← dictGet pp.cats "cats"
        pure (PetFlag.ofBool b)
    | none => pure (PetFlag.ofString "Unknown")
  let dogs_allowed ←
    match pet_policy with
    | some pp => do
        let b ← dictGet pp.dogs "dogs"
        pure (PetFlag.ofBool b)
    | none => pure (PetFlag.ofString "Unknown")
  let list_price ← dictGet r.list_price_max "list_price_max"
  let ammenities ← catchAttr (dictGet r.tags "tags") ([] : List String)
  let photos ← catchAttr
    (do
      let p ← dictGet r.photos "photos"
      pure (some p)) none
  return { latitude := lat
           longitude := lon
           street_address := line
           city := city
           state := state
           bedrooms := bedrooms
           bathrooms := baths
           cats_allowed := cats_allowed
           dogs_allowed := dogs_allowed
           list_price := list_price
           ammenities := ammenities
           photos := photos }

/-- The extraction portion of `rental_listing` (external.py:277-328):
`for i in range(limit)` indexing `response[i]` with no guard against the
results array being shorter than `limit`. -/
def rental_listing (results : List RentalEntry) (limit : Nat) :
    Except PyErr (List RentalOut) :=
  (List.range limit).mapM (fun i => do
    let entry ← listIndex results i
    rental_entry entry)

/-! ## Concrete fixtures used to exercise the extractors -/

/-- A rental entry with every accessed field present. -/
def entry0 : RentalEntry :=
  { location := some
      { address := some
          { coordinate := some { lat := some 40, lon := some (-73) }
            line := some "1 Main St"
            city := some "New York"
            state := some "NY" } }
    pet_policy := some (some { cats := some true, dogs := some false })
    description := some { baths_max := some 2, beds_max := some 3 }
    list_price_max := some 2500
    tags := some ["gym"]
    photos := some ["p1"] }

/-- The extraction output for `entry0`. -/
def entry0_out : RentalOut :=
  { latitude := 40
    longitude := -73
    street_address := "1 Main St"
    city := "New York"
    state := "NY"
    bedrooms := 3
    bathrooms := 2
    cats_allowed := PetFlag.ofBool true
    dogs_allowed := PetFlag.ofBool false
    list_price := 2500
    ammenities := ["gym"]
    photos := some ["p1"] }

/-- The entry `entry0` with the `baths_max` key removed from its `description`. -/
def entry_no_baths : RentalEntry :=
  { entry0 with description := some { baths_max := none, beds_max := some 3 } }

/-- The anchor of a complete job card. -/
def atag0 : Tag := { attrs := [("title", "Dev"), ("href", "/rc/clk")], text := "" }

/-- A job card with every element present except the optional salary. -/
def card0 : Card :=
  { h2 := some { a := some atag0 }
    span_company := some { attrs := [], text := " Acme " }
    div_recJobLoc := some { attrs := [("data-rc-loc", "NYC")], text := "" }
    div_summary := some { attrs := [], text := "sum" }
    span_date := some { attrs := [], text := "3 days ago" }
    span_salary := none }

/-- The card `card0` with its date span missing. -/
def card_no_date : Card := { card0 with span_date := none }

/-- A scraped page holding eleven complete job cards. -/
def jobDoc11 : JobDoc := { cards := List.replicate 11 card0, searchCountPages := none }

/-- A weather payload whose `main` key is absent. -/
def weather_no_main : WeatherData :=
  { main := none
    weather := some [{ description := some "clear" }]
    wind := some { speed := some "4.6" } }

/-- A weather payload with every expected key present. -/
def weather_ok0 : WeatherData :=
  { main := some
      { temp := some "72.5"
        temp_max := some "75"
        temp_min := some "70"
        humidity := some "30"
        feels_like := some "71"
        pressure := some "1013" }
    weather := some [{ description := some "clear" }]
    wind := some { speed := some "4.6" } }

/-- A table cell with the given text. -/
def tcell (s : String) : Tag := { attrs := [], text := s }

/-- A climate page with three high cells and two low cells. -/
def climateDoc0 : ClimateDoc :=
  { td_high := [tcell " 39 ", tcell "42", tcell "51"]
    td_low := [tcell "26", tcell "28"] }

/-! ## General lemmas about the embedded primitives -/

theorem except_bind_ok {ε α β : Type} (a : α) (f : α → Except ε β) :
    (Except.ok a >>= f) = f a := rfl

theorem except_bind_error {ε α β : Type} (e : ε) (f : α → Except ε β) :
    ((Except.error e : Except ε α) >>= f) = Except.error e := rfl

theorem except_pure {ε α : Type} (a : α) : (pure a : Except ε α) = Except.ok a := rfl

theorem mapM_ok_of_forall {ε : Type} {α β : Type} (f : α → Except ε β) (g : α → β) :
    ∀ l : List α, (∀ a ∈ l, f a = Except.ok (g a)) → l.mapM f = Except.ok (l.map g) := by
  intro l
  induction l with
  | nil => intro _; rfl
  | cons x t ih =>
    intro h
    rw [List.mapM_cons, h x (List.mem_cons_self x t),
      ih (fun a ha => h a (List.mem_cons_of_mem x ha))]
    rfl

theorem mapM_isOk_of_forall {ε : Type} {α β : Type} (f : α → Except ε β) :
    ∀ l : List α, (∀ a ∈ l, ∃ b, f a = Except.ok b) → ∃ bs, l.mapM f = Except.ok bs := by
  intro l
  induction l with
  | nil => intro _; exact ⟨[], rfl⟩
  | cons x t ih =>
    intro h
    obtain ⟨b, hb⟩ := h x (List.mem_cons_self x t)
    obtain ⟨bs, hbs⟩ := ih (fun a ha => h a (List.mem_cons_of_mem x ha))
    refine ⟨b :: bs, ?_⟩
    rw [List.mapM_cons, hb, except_bind_ok, hbs]
    rfl

theorem mapM_error_append {ε : Type} {α β : Type} (f : α → Except ε β) (e : ε) :
    ∀ (l₁ : List α) (a : α) (l₂ : List α),
      (∀ x ∈ l₁, ∃ b, f x = Except.ok b) → f a = Except.error e →
      (l₁ ++ a :: l₂).mapM f = Except.error e := by
  intro l₁
  induction l₁ with
  | nil =>
    intro a l₂ _ ha
    rw [List.nil_append, List.mapM_cons, ha]
    rfl
  | cons x t ih =>
    intro a l₂ h ha
    obtain ⟨b, hb⟩ := h x (List.mem_cons_self x t)
    rw [List.cons_append, List.mapM_cons, hb, except_bind_ok,
      ih a l₂ (fun y hy => h y (List.mem_cons_of_mem x hy)) ha]
    rfl

theorem mapM_error_of_mem {ε : Type} {α β : Type} (f : α → Except ε β) :
    ∀ l : List α, (∃ c ∈ l, ∃ e, f c = Except.error e) →
      ∃ e, l.mapM f = Except.error e := by
  intro l
  induction l with
  | nil => rintro ⟨c, hc, _⟩; cases hc
  | cons x t ih =>
    rintro ⟨c, hc, e, he⟩
    cases hfx : f x with
    | error e2 => exact ⟨e2, by rw [List.mapM_cons, hfx]; rfl⟩
    | ok b =>
      have hct : c ∈ t := by
        rcases List.mem_cons.mp hc with h | h
        · subst h; rw [hfx] at he; exact Except.noConfusion he
        · exact h
      obtain ⟨e2, he2⟩ := ih ⟨c, hct, e, he⟩
      exact ⟨e2, by rw [List.mapM_cons, hfx, except_bind_ok, he2]; rfl⟩

theorem mapM_ok_inversion {ε : Type} {α β : Type} (f : α → Except ε β) :
    ∀ (l : List α) (l' : List β), l.mapM f = Except.ok l' →
      l'.length = l.length ∧
      ∀ i (hi : i < l.length) (hi' : i < l'.length),
        f (l.get ⟨i, hi⟩) = Except.ok (l'.get ⟨i, hi'⟩) := by
  intro l
  induction l with
  | nil =>
    intro l' h
    have h' : l' = [] := by
      have : (Except.ok [] : Except ε (List β)) = Except.ok l' := h
      exact (Except.ok.injEq _ _).mp this |>.symm
    subst h'
    exact ⟨rfl, fun i hi _ => absurd hi (Nat.not_lt_zero i)⟩
  | cons x t ih =>
    intro l' h
    rw [List.mapM_cons] at h
    cases hfx : f x with
    | error e => rw [hfx, except_bind_error] at h; exact Except.noConfusion h
    | ok b =>
      rw [hfx, except_bind_ok] at h
      cases hmt : t.mapM f with
      | error e => rw [hmt, except_bind_error] at h; exact Except.noConfusion h
      | ok ts =>
        rw [hmt, except_bind_ok] at h
        have h' : l' = b :: ts := ((Except.ok.injEq _ _).mp h).symm
        subst h'
        obtain ⟨hlen, hget⟩ := ih ts hmt
        refine ⟨by simp [hlen], ?_⟩
        intro i hi hi'
        cases i with
        | zero => simpa using hfx
        | succ j =>
          have hj : j < t.length := Nat.lt_of_succ_lt_succ hi
          have hj' : j < ts.length := Nat.lt_of_succ_lt_succ hi'
          simpa using hget j hj hj'

theorem listIndex_ok {α : Type} (l : List α) (i : Nat) (h : i < l.length) :
    listIndex l i = Except.ok (l.get ⟨i, h⟩) := by
  simp [listIndex, List.getElem?_eq_getElem h]

theorem listIndex_oob {α : Type} (l : List α) (i : Nat) (h : l.length ≤ i) :
    listIndex l i = Except.error PyErr.indexError := by
  simp [listIndex, List.getElem?_eq_none h]

theorem range_split {n limit : Nat} (h : n < limit) :
    ∃ l₂, List.range limit = List.range n ++ n :: l₂ := by
  refine ⟨(List.range (limit - n - 1)).map (fun x => n + (x + 1)), ?_⟩
  have h1 : limit = n + (limit - n - 1 + 1) := by omega
  rw [h1, List.range_add, List.range_succ_eq_map]
  simp [List.map_map, Function.comp_def, Nat.succ_eq_add_one]

theorem map_eq_self_of {α : Type} (f : α → α) :
    ∀ l : List α, (∀ a ∈ l, f a = a) → l.map f = l := by
  intro l
  induction l with
  | nil => intro _; rfl
  | cons x t ih =>
    intro h
    rw [List.map_cons, h x (List.mem_cons_self x t),
      ih (fun a ha => h a (List.mem_cons_of_mem x ha))]

theorem dropWhile_eq_self_of_head {α : Type} (p : α → Bool) (l : List α)
    (h : ∀ c, l.head? = some c → p c = false) : l.dropWhile p = l := by
  cases l with
  | nil => rfl
  | cons x t => simp [List.dropWhile_cons, h x rfl]

theorem dropWhile_head_false {α : Type} (p : α → Bool) :
    ∀ (l : List α) (c : α), (l.dropWhile p).head? = some c → p c = false := by
  intro l
  induction l with
  | nil => intro c h; simp at h
  | cons x t ih =>
    intro c h
    rw [List.dropWhile_cons] at h
    by_cases hp : p x = true
    · rw [if_pos hp] at h; exact ih c h
    · rw [if_neg hp] at h
      have : x = c := by simpa using h
      subst this
      simpa using hp

theorem getLast?_dropWhile_ne_nil {α : Type} (p : α → Bool) :
    ∀ l : List α, l.dropWhile p ≠ [] → (l.dropWhile p).getLast? = l.getLast? := by
  intro l
  induction l with
  | nil => intro h; simp at h
  | cons x t ih =>
    intro h
    rw [List.dropWhile_cons] at h ⊢
    by_cases hp : p x = true
    · rw [if_pos hp] at h ⊢
      have ht : t ≠ [] := by
        intro he
        subst he
        simp at h
      rw [ih h, List.getLast?_cons]
      cases hgt : t.getLast? with
      | none => exact absurd (List.getLast?_eq_none_iff.mp hgt) ht
      | some y => rfl
    · rw [if_neg hp]


theorem pyStrip_subset {l : List Char} {c : Char} (h : c ∈ pyStrip l) : c ∈ l := by
  unfold pyStrip at h
  rw [List.mem_reverse] at h
  have h1 := (List.dropWhile_sublist Char.isWhitespace).subset h
  rw [List.mem_reverse] at h1
  exact (List.dropWhile_sublist Char.isWhitespace).subset h1

theorem pyStrip_head_not_ws {l : List Char} {c : Char}
    (h : (pyStrip l).head? = some c) : c.isWhitespace = false := by
  unfold pyStrip at h
  rw [List.head?_reverse] at h
  have hne : (l.dropWhile Char.isWhitespace).reverse.dropWhile Char.isWhitespace ≠ [] := by
    intro he
    rw [he] at h
    simp at h
  rw [getLast?_dropWhile_ne_nil Char.isWhitespace _ hne, List.getLast?_reverse] at h
  exact dropWhile_head_false Char.isWhitespace l c h

theorem pyStrip_getLast_not_ws {l : List Char} {c : Char}
    (h : (pyStrip l).getLast? = some c) : c.isWhitespace = false := by
  unfold pyStrip at h
  rw [List.getLast?_reverse] at h
  exact dropWhile_head_false Char.isWhitespace _ c h

theorem pyStrip_eq_self (l : List Char)
    (hh : l.head?.all (fun c => !c.isWhitespace) = true)
    (hl : l.getLast?.all (fun c => !c.isWhitespace) = true) : pyStrip l = l := by
  unfold pyStrip
  have e1 : l.dropWhile Char.isWhitespace = l := by
    apply dropWhile_eq_self_of_head
    intro c hc
    rw [hc] at hh
    simpa using hh
  rw [e1]
  have e2 : l.reverse.dropWhile Char.isWhitespace = l.reverse := by
    apply dropWhile_eq_self_of_head
    intro c hc
    rw [List.head?_reverse] at hc
    rw [hc] at hl
    simpa using hl
  rw [e2, List.reverse_reverse]

theorem char_toNat_ofNat_valid {n : Nat} (h : n.isValidChar) :
    (Char.ofNat n).toNat = n := by
  rw [Char.ofNat, dif_pos h]
  rfl

theorem toLower_toLower (c : Char) :
    Char.toLower (Char.toLower c) = Char.toLower c := by
  by_cases h : c.toNat ≥ 65 ∧ c.toNat ≤ 90
  · have hvalid : Nat.isValidChar (c.toNat + 32) := Or.inl (by omega)
    have h1 : Char.toLower c = Char.ofNat (c.toNat + 32) := by
      simp only [Char.toLower]
      rw [if_pos h]
    rw [h1]
    simp only [Char.toLower]
    rw [char_toNat_ofNat_valid hvalid, if_neg (by omega)]
  · have h1 : Char.toLower c = c := by
      simp only [Char.toLower]
      rw [if_neg h]
    rw [h1, h1]

theorem toLower_spaceToHyphen (c : Char) (h : Char.toLower c = c) :
    Char.toLower (spaceToHyphen c) = spaceToHyphen c := by
  unfold spaceToHyphen
  by_cases hc : c = ' '
  · rw [if_pos hc]
    decide
  · rw [if_neg hc]
    exact h

theorem spaceToHyphen_not_ws (c : Char) (h : c.isWhitespace = false) :
    (spaceToHyphen c).isWhitespace = false := by
  unfold spaceToHyphen
  by_cases hc : c = ' '
  · subst hc
    simp at h
  · rw [if_neg hc]
    exact h

theorem spaceToHyphen_ne_space (c : Char) : spaceToHyphen c ≠ ' ' := by
  unfold spaceToHyphen
  by_cases hc : c = ' '
  · rw [if_pos hc]
    decide
  · rw [if_neg hc]
    exact hc

theorem clean_string_eq_normalize (s : String) : clean_string s = normalize_spec s := by
  unfold clean_string normalize_spec
  by_cases hsp : ' ' ∈ pyStrip (pyLower s.data)
  · rw [if_pos hsp]
  · rw [if_neg hsp]
    have heq : (pyStrip (pyLower s.data)).map spaceToHyphen = pyStrip (pyLower s.data) := by
      apply map_eq_self_of
      intro a ha
      unfold spaceToHyphen
      rw [if_neg]
      intro he
      subst he
      exact hsp ha
    rw [heq]

theorem clean_string_of_normalized (s : String) (h : normalizedStr s) :
    clean_string s = s := by
  obtain ⟨hlow, hhead, hlast, hspace⟩ := h
  unfold clean_string
  have h1 : pyLower s.data = s.data := map_eq_self_of Char.toLower s.data hlow
  rw [h1, pyStrip_eq_self s.data hhead hlast, if_neg hspace]

theorem clean_string_normalizedStr (s : String) : normalizedStr (clean_string s) := by
  unfold clean_string normalizedStr
  by_cases hsp : ' ' ∈ pyStrip (pyLower s.data)
  · rw [if_pos hsp]
    refine ⟨?_, ?_, ?_, ?_⟩
    · intro c hc
      obtain ⟨d, hd, rfl⟩ := List.mem_map.mp hc
      have hd' : d ∈ pyLower s.data := pyStrip_subset hd
      obtain ⟨d0, _, rfl⟩ := List.mem_map.mp hd'
      exact toLower_spaceToHyphen _ (toLower_toLower d0)
    · rw [List.head?_map]
      cases hh : (pyStrip (pyLower s.data)).head? with
      | none => rfl
      | some c =>
        have hws := pyStrip_head_not_ws hh
        simp [spaceToHyphen_not_ws c hws]
    · rw [List.getLast?_map]
      cases hh : (pyStrip (pyLower s.data)).getLast? with
      | none => rfl
      | some c =>
        have hws := pyStrip_getLast_not_ws hh
        simp [spaceToHyphen_not_ws c hws]
    · intro hc
      obtain ⟨d, _, hd2⟩ := List.mem_map.mp hc
      exact spaceToHyphen_ne_space d hd2
  · rw [if_neg hsp]
    refine ⟨?_, ?_, ?_, ?_⟩
    · intro c hc
      have hc' : c ∈ pyLower s.data := pyStrip_subset hc
      obtain ⟨d0, _, rfl⟩ := List.mem_map.mp hc'
      exact toLower_toLower d0
    · cases hh : (pyStrip (pyLower s.data)).head? with
      | none => rfl
      | some c =>
        have hws := pyStrip_head_not_ws hh
        simp [hh, hws]
    · cases hh : (pyStrip (pyLower s.data)).getLast? with
      | none => rfl
      | some c =>
        have hws := pyStrip_getLast_not_ws hh
        simp [hh, hws]
    · exact hsp


theorem weather_missing_not_ok (t : String) (d : WeatherData) (r : WeatherReport)
    (h : weather_field_missing d = true) : current_weather t d ≠ Except.ok r := by
  intro hok
  obtain ⟨mo, wo, wio⟩ := d
  rcases mo with _ | ⟨_|t1, _|t2, _|t3, _|t4, _|t5, _|t6⟩ <;>
    rcases wo with _ | (_ | ⟨⟨_|desc⟩, _⟩) <;>
    rcases wio with _ | ⟨_|sp⟩ <;>
    first
      | exact Bool.noConfusion h
      | exact Except.noConfusion hok

theorem weather_present_ok (t : String) (d : WeatherData)
    (h : weather_field_missing d = false) : ∃ r, current_weather t d = Except.ok r := by
  obtain ⟨mo, wo, wio⟩ := d
  rcases mo with _ | ⟨_|t1, _|t2, _|t3, _|t4, _|t5, _|t6⟩ <;>
    rcases wo with _ | (_ | ⟨⟨_|desc⟩, _⟩) <;>
    rcases wio with _ | ⟨_|sp⟩ <;>
    first
      | exact Bool.noConfusion h
      | exact ⟨_, rfl⟩


theorem get_record_malformed (card : Card) (d : String) (hm : cardMalformed card) :
    get_record card d = Except.error PyErr.attributeError := by
  obtain ⟨h2o, co, lo, suo, dao, sao⟩ := card
  rcases h2o with _ | ⟨_ | atag⟩ <;> rcases co with _ | ct <;> rcases lo with _ | lt <;>
    rcases suo with _ | sut <;> rcases dao with _ | dat <;> rcases sao with _ | sat <;>
    first
      | rfl
      | (rcases hm with h | ⟨h2v, hh2, ha⟩ | h | h | h | h <;>
          first
            | (simp_all; done)
            | (obtain ⟨_ | av⟩ := h2v <;> first | rfl | simp_all))


/-! ## Claim theorems -/

/-- C4: `generate_climate_url` lowercases each of city and state, trims
surrounding whitespace, replaces every internal space with a hyphen, and
interpolates the two results into the fixed path template; in particular
`generate_climate_url "New York" "NY"` is the new-york/ny URL. -/
theorem generate_climate_url_spec :
    (∀ city st : String, generate_climate_url city st =
      "https://www.usclimatedata.com/climate/" ++ normalize_spec city ++ "/" ++
        normalize_spec st ++ "/united-states/") ∧
    generate_climate_url "New York" "NY" =
      "https://www.usclimatedata.com/climate/new-york/ny/united-states/" := by
  constructor
  · intro city st
    rw [generate_climate_url, clean_string_eq_normalize, clean_string_eq_normalize]
  · rfl

/-- C5: the climate URL normalization is idempotent: a string that is
already lowercase, trimmed and space-free is returned unchanged, and
applying the normalization twice equals applying it once. -/
theorem clean_string_idempotent :
    (∀ s : String, normalizedStr s → clean_string s = s) ∧
    (∀ s : String, clean_string (clean_string s) = clean_string s) := by
  refine ⟨clean_string_of_normalized, ?_⟩
  intro s
  exact clean_string_of_normalized (clean_string s) (clean_string_normalizedStr s)

/-- Witness for C5 at the concrete inputs "new-york" and "  New York ". -/
theorem clean_string_idempotent_witness :
    (normalizedStr "new-york" ∧ clean_string "new-york" = "new-york") ∧
    clean_string (clean_string "  New York ") = clean_string "  New York " :=
  ⟨⟨by unfold normalizedStr; decide,
      clean_string_idempotent.1 "new-york" (by unfold normalizedStr; decide)⟩,
    clean_string_idempotent.2 "  New York "⟩


/-- C1: with well-formed entries, running `rental_listing` with a `limit`
larger than the number of results raises `IndexError` (no clamping and no
early stop), while a `limit` within the number of results succeeds with no
such error. -/
theorem rental_listing_limit_behavior :
    ∀ (results : List RentalEntry) (limit : Nat),
      (∀ e ∈ results, ∃ o, rental_entry e = Except.ok o) →
      (results.length < limit →
        rental_listing results limit = Except.error PyErr.indexError) ∧
      (limit ≤ results.length →
        ∃ outs, rental_listing results limit = Except.ok outs) := by
  intro results limit hwf
  constructor
  · intro hlt
    obtain ⟨l₂, hsplit⟩ := range_split hlt
    unfold rental_listing
    rw [hsplit]
    apply mapM_error_append
    · intro x hx
      have hxlt : x < results.length := List.mem_range.mp hx
      obtain ⟨o, ho⟩ := hwf (results.get ⟨x, hxlt⟩) (results.get_mem x hxlt)
      refine ⟨o, ?_⟩
      simp only [listIndex_ok results x hxlt, except_bind_ok]
      exact ho
    · simp only [listIndex_oob results results.length (Nat.le_refl _), except_bind_error]
  · intro hle
    unfold rental_listing
    apply mapM_isOk_of_forall
    intro i hi
    have hilt : i < results.length := lt_of_lt_of_le (List.mem_range.mp hi) hle
    obtain ⟨o, ho⟩ := hwf (results.get ⟨i, hilt⟩) (results.get_mem i hilt)
    refine ⟨o, ?_⟩
    simp only [listIndex_ok results i hilt, except_bind_ok]
    exact ho

/-- Witness for C1: three well-formed entries, limits 5 and 2. -/
theorem rental_listing_limit_behavior_witness :
    rental_listing [entry0, entry0, entry0] 5 = Except.error PyErr.indexError ∧
    ∃ outs, rental_listing [entry0, entry0, entry0] 2 = Except.ok outs := by
  have hwf : ∀ e ∈ [entry0, entry0, entry0], ∃ o, rental_entry e = Except.ok o := by
    intro e he
    have he' : e = entry0 := by
      simpa using he
    subst he'
    exact ⟨entry0_out, rfl⟩
  exact ⟨(rental_listing_limit_behavior [entry0, entry0, entry0] 5 hwf).1 (by decide),
    (rental_listing_limit_behavior [entry0, entry0, entry0] 2 hwf).2 (by decide)⟩


/-- C2 (code bug): `job_opportunities` applies no `[:10]` cap: a document
with eleven matching job cards yields eleven listings under the
"Top 10 Listings" key, contradicting the function docstring
("Fetch first 10 job opportunities") and the claimed ≤10 cap. -/
theorem job_opportunities_no_cap :
    (job_opportunities jobDoc11 "2021-04-21").map (fun r => r.top_listings.length) =
      Except.ok 11 := rfl

/-- C3 (amended): when an expected weather key is absent, the extraction
fails with an uncaught missing-key exception — the handler result is the
escaped error, never a structured success value; the code contains no
conversion to a 502 response.  When every expected key is present the
extraction succeeds. -/
theorem current_weather_missing_key_uncaught :
    ∀ (today : String) (d : WeatherData),
      (weather_field_missing d = true → ∀ r, current_weather today d ≠ Except.ok r) ∧
      (weather_field_missing d = false → ∃ r, current_weather today d = Except.ok r) :=
  fun today d =>
    ⟨fun h r => weather_missing_not_ok today d r h, weather_present_ok today d⟩

/-- Counterexample for C3 as stated: on a payload whose `main` key is
absent, the handler's result is the escaped `KeyError "main"` exception
(an unhandled crash of the request), not a structured 502/upstream error
response. -/
theorem current_weather_missing_main_crashes :
    current_weather "10/12/26" weather_no_main =
      Except.error (PyErr.keyError "main") := rfl

/-- Witness for the amended C3 at one missing-key payload and one complete
payload. -/
theorem current_weather_missing_key_uncaught_witness :
    (∀ r, current_weather "10/12/26" weather_no_main ≠ Except.ok r) ∧
    (∃ r, current_weather "10/12/26" weather_ok0 = Except.ok r) :=
  ⟨(current_weather_missing_key_uncaught "10/12/26" weather_no_main).1 (by decide),
    (current_weather_missing_key_uncaught "10/12/26" weather_ok0).2 (by decide)⟩

/-- C6: `get_forecast` returns, for each of the high and the low class, the
integer values of the first `min(n, 12)` matching cells in document order
(slice semantics: with fewer than 12 cells it returns however many exist). -/
theorem get_forecast_slices :
    ∀ (doc : ClimateDoc) (hs ls : List Int),
      (doc.td_high.take 12).mapM (fun t => pyIntE (pyStripS t.text)) = Except.ok hs →
      (doc.td_low.take 12).mapM (fun t => pyIntE (pyStripS t.text)) = Except.ok ls →
      get_forecast doc = Except.ok { avg_high := hs, avg_low := ls } ∧
      hs.length = min 12 doc.td_high.length ∧
      ls.length = min 12 doc.td_low.length ∧
      (∀ i (hi2 : i < (doc.td_high.take 12).length) (hi : i < hs.length),
        pyIntE (pyStripS ((doc.td_high.take 12).get ⟨i, hi2⟩).text) =
          Except.ok (hs.get ⟨i, hi⟩)) ∧
      (∀ i (hi2 : i < (doc.td_low.take 12).length) (hi : i < ls.length),
        pyIntE (pyStripS ((doc.td_low.take 12).get ⟨i, hi2⟩).text) =
          Except.ok (ls.get ⟨i, hi⟩)) := by
  intro doc hs ls hh hl
  obtain ⟨hlh, hgh⟩ := mapM_ok_inversion _ _ _ hh
  obtain ⟨hll, hgl⟩ := mapM_ok_inversion _ _ _ hl
  refine ⟨?_, ?_, ?_, ?_, ?_⟩
  · unfold get_forecast
    rw [hh, except_bind_ok, hl, except_bind_ok]
    rfl
  · rw [hlh, List.length_take]
  · rw [hll, List.length_take]
  · exact fun i hi2 hi => hgh i hi2 hi
  · exact fun i hi2 hi => hgl i hi2 hi

/-- Witness for C6: three high cells and two low cells. -/
theorem get_forecast_slices_witness :
    get_forecast climateDoc0 =
      Except.ok { avg_high := [39, 42, 51], avg_low := [26, 28] } ∧
    ([39, 42, 51] : List Int).length = min 12 climateDoc0.td_high.length := by
  have h := get_forecast_slices climateDoc0 [39, 42, 51] [26, 28] rfl rfl
  exact ⟨h.1, h.2.1⟩


/-- C7: a job card whose optional salary element is absent yields
`salary = ""` while every other field is still extracted; the salary
lookup failure never aborts the extraction. -/
theorem get_record_missing_salary :
    ∀ (atag ct lt sut dat : Tag) (d href : String),
      tagAttr atag "href" = some href →
      get_record
        { h2 := some { a := some atag }
          span_company := some ct
          div_recJobLoc := some lt
          div_summary := some sut
          span_date := some dat
          span_salary := none } d =
      Except.ok
        { job_title := tagAttr atag "title"
          company := pyStripS ct.text
          location := tagAttr lt "data-rc-loc"
          date_posted := pyStripS dat.text
          extract_date := d
          description := pyStripS sut.text
          salary := ""
          job_url := "https://www.indeed.com" ++ href } := by
  intro atag ct lt sut dat d href hhref
  simp [get_record, pyAttr, catchAttr, hhref, except_bind_ok, except_bind_error,
    except_pure]

/-- Witness for C7 at the concrete card `card0`. -/
theorem get_record_missing_salary_witness :
    get_record card0 "2021-04-21" =
      Except.ok
        { job_title := some "Dev"
          company := "Acme"
          location := some "NYC"
          date_posted := "3 days ago"
          extract_date := "2021-04-21"
          description := "sum"
          salary := ""
          job_url := "https://www.indeed.com/rc/clk" } := by
  have h := get_record_missing_salary atag0 { attrs := [], text := " Acme " }
    { attrs := [("data-rc-loc", "NYC")], text := "" } { attrs := [], text := "sum" }
    { attrs := [], text := "3 days ago" } "2021-04-21" "/rc/clk" rfl
  exact h.trans (by rfl)

/-- C8 (code bug): a rental entry whose `description` lacks `baths_max`
makes the extraction raise an uncaught `KeyError "baths_max"` — the
`except AttributeError` handler does not catch a missing dict key, so no
default of 0 is applied. -/
theorem rental_entry_missing_baths_keyerror :
    rental_entry entry_no_baths = Except.error (PyErr.keyError "baths_max") := rfl

/-- C9: on a well-formed rental entry, a JSON-null `pet_policy` yields the
sentinel string "Unknown" for both pet fields, and a present `pet_policy`
object yields exactly its `cats` and `dogs` flags. -/
theorem rental_entry_pet_policy_sentinel :
    ∀ (lat lon bm bd lp : Int) (line city st : String) (tg ph : List String)
      (cb db : Bool),
      (rental_entry
        { location := some
            { address := some
                { coordinate := some { lat := some lat, lon := some lon }
                  line := some line, city := some city, state := some st } }
          pet_policy := some none
          description := some { baths_max := some bm, beds_max := some bd }
          list_price_max := some lp
          tags := some tg
          photos := some ph } =
        Except.ok
          { latitude := lat, longitude := lon, street_address := line
            city := city, state := st, bedrooms := bd, bathrooms := bm
            cats_allowed := PetFlag.ofString "Unknown"
            dogs_allowed := PetFlag.ofString "Unknown"
            list_price := lp, ammenities := tg, photos := some ph }) ∧
      (rental_entry
        { location := some
            { address := some
                { coordinate := some { lat := some lat, lon := some lon }
                  line := some line, city := some city, state := some st } }
          pet_policy := some (some { cats := some cb, dogs := some db })
          description := some { baths_max := some bm, beds_max := some bd }
          list_price_max := some lp
          tags := some tg
          photos := some ph } =
        Except.ok
          { latitude := lat, longitude := lon, street_address := line
            city := city, state := st, bedrooms := bd, bathrooms := bm
            cats_allowed := PetFlag.ofBool cb
            dogs_allowed := PetFlag.ofBool db
            list_price := lp, ammenities := tg, photos := some ph }) := by
  intro lat lon bm bd lp line city st tg ph cb db
  exact ⟨rfl, rfl⟩

/-- C10: salary is the only tolerated missing job-card field: a card
lacking the title anchor, company span, location div, summary div or date
span makes `get_record` raise an uncaught `AttributeError`, and one such
card in a page aborts the whole `job_opportunities` extraction. -/
theorem get_record_required_fields :
    (∀ (card : Card) (d : String), cardMalformed card →
      get_record card d = Except.error PyErr.attributeError) ∧
    (∀ (doc : JobDoc) (d : String), (∃ card ∈ doc.cards, cardMalformed card) →
      ∃ e, job_opportunities doc d = Except.error e) := by
  constructor
  · exact get_record_malformed
  · rintro doc d ⟨card, hmem, hmal⟩
    obtain ⟨e, he⟩ := mapM_error_of_mem (fun c => get_record c d) doc.cards
      ⟨card, hmem, PyErr.attributeError, get_record_malformed card d hmal⟩
    refine ⟨e, ?_⟩
    unfold job_opportunities
    rw [he, except_bind_error]

/-- Witness for C10 at a card missing its date span, alone and inside a
two-card page. -/
theorem get_record_required_fields_witness :
    get_record card_no_date "2021-04-21" = Except.error PyErr.attributeError ∧
    ∃ e, job_opportunities
      { cards := [card0, card_no_date], searchCountPages := none } "2021-04-21" =
      Except.error e := by
  have hmal : cardMalformed card_no_date :=
    Or.inr (Or.inr (Or.inr (Or.inr (Or.inr rfl))))
  exact ⟨get_record_required_fields.1 card_no_date "2021-04-21" hmal,
    get_record_required_fields.2 _ "2021-04-21" ⟨card_no_date, by decide, hmal⟩⟩

end CitySpire
